import Mathlib

/-!
Shallow embedding of the AWS S3 file-upload Lambda in `src/main.go`.

The repository contains two near-identical handler variants in one file:
a *compression* variant (lines 1-144), whose `Handler` compresses and
"encrypts" the request body before uploading, and a *plain* variant
(lines 145-235), whose `Handler` uploads the raw request body.  They are
embedded here as `HandlerCompress` and `HandlerPlain`.

External collaborators are modelled as oracles:
* the AWS configuration loader and the S3 backend (`CreateBucket`,
  `PutObject`) live in an `Env` record, together with the two wall-clock
  readings `time.Now()` taken during one invocation;
* the Zstandard codec (`github.com/klauspost/compress/zstd`) is a `Codec`
  record with a fallible writer-initialisation step, a fallible write step,
  the produced compressed bytes, and the matching decompressor.

Byte sequences are `List Nat`.  Handlers additionally return the list of
S3 requests they issued, so that ordering and frame properties (fail-fast,
absence of rollback calls) are statable.
-/

/-- Byte sequences, as Go `[]byte`. -/
abbrev Bytes := List Nat

/-- Go `[]byte(s)` conversion, taken at Unicode code points (identical to the
UTF-8 bytes for the ASCII strings this program manipulates). -/
def strBytes (s : String) : Bytes := s.data.map Char.toNat

/-- Oracle for the external Zstandard codec: `newWriterErr` models a failure of
`zstd.NewWriter`, `writeErr data` a failure of `encoder.Write(data)`, `encode
data` the bytes buffered once the encoder is closed, and `decode` the matching
decompressor (used only to state round-trip properties). -/
structure Codec where
  newWriterErr : Option String
  writeErr : Bytes → Option String
  encode : Bytes → Bytes
  decode : Bytes → Except String Bytes

/-- `compressZstd` (src/main.go lines 76-88): create the encoder, write the
data, close, and return the buffered bytes; each fallible step is wrapped in
its own error message. -/
def compressZstd (codec : Codec) (data : Bytes) : Except String Bytes :=
  match codec.newWriterErr with
  | some e => Except.error ("zstandard compression initialization error: " ++ e)
  | none =>
    match codec.writeErr data with
    | some e => Except.error ("zstandard compression error: " ++ e)
    | none => Except.ok (codec.encode data)

/-- `encrypt` (src/main.go lines 91-96): a placeholder that returns its input
unchanged and never fails. -/
def encrypt (data : Bytes) (key : Bytes) : Except String Bytes :=
  Except.ok data

/-- The fixed local `key := []byte("your-encryption-key")` of
`compressAndEncrypt` (src/main.go line 63). -/
def encryptionKey : Bytes := strBytes "your-encryption-key"

/-- `compressAndEncrypt` (src/main.go lines 54-73): zstd-compress, "encrypt"
with the fixed key, and prepend the key to the result
(`result := append(key, encryptedData...)`). -/
def compressAndEncrypt (codec : Codec) (data : Bytes) : Except String Bytes :=
  match compressZstd codec data with
  | Except.error e => Except.error ("zstandard compression error: " ++ e)
  | Except.ok compressedData =>
    match encrypt compressedData encryptionKey with
    | Except.error e => Except.error ("AES encryption error: " ++ e)
    | Except.ok encryptedData => Except.ok (encryptionKey ++ encryptedData)

/-- A codec whose encoder is the identity and never fails; used to instantiate
theorems at concrete inputs. -/
def idCodec : Codec :=
  ⟨none, fun _ => none, fun d => d, fun d => Except.ok d⟩

/-- A wall-clock reading, as the fields of a Go `time.Time` relevant to the
layout `"20060102-150405"`; `nanosecond` records sub-second precision the
layout discards. -/
structure GoTime where
  year : Nat
  month : Nat
  day : Nat
  hour : Nat
  minute : Nat
  second : Nat
  nanosecond : Nat
  deriving DecidableEq

/-- Zero-pad a natural to two digits, as Go layout components `01`..`05` do. -/
def pad2 (n : Nat) : String :=
  if n < 10 then "0" ++ toString n else toString n

/-- Zero-pad a natural to four digits, as the Go layout component `2006` does. -/
def pad4 (n : Nat) : String :=
  if n < 10 then "000" ++ toString n
  else if n < 100 then "00" ++ toString n
  else if n < 1000 then "0" ++ toString n
  else toString n

/-- `t.Format("20060102-150405")`: second-granularity timestamp string. -/
def goFormat (t : GoTime) : String :=
  pad4 t.year ++ pad2 t.month ++ pad2 t.day ++ "-" ++
    pad2 t.hour ++ pad2 t.minute ++ pad2 t.second

/-- Two wall-clock readings lie in the same second: every field the layout
`"20060102-150405"` prints agrees (only `nanosecond` may differ). -/
def sameSecond (t u : GoTime) : Prop :=
  t.year = u.year ∧ t.month = u.month ∧ t.day = u.day ∧
    t.hour = u.hour ∧ t.minute = u.minute ∧ t.second = u.second

/-- Bucket name of the compression variant (src/main.go line 111). -/
def bucketNameCompress (t : GoTime) : String :=
  "filename" ++ goFormat t

/-- Object key of the compression variant (src/main.go line 121). -/
def fileNameCompress (t : GoTime) : String :=
  "upload-" ++ goFormat t ++ ".zst"

/-- Bucket name of the plain variant (src/main.go line 208). -/
def bucketNamePlain (t : GoTime) : String :=
  "your-prefix-" ++ goFormat t

/-- Object key of the plain variant (src/main.go line 218). -/
def fileNamePlain (t : GoTime) : String :=
  "upload-" ++ goFormat t

/-- One request issued to the S3 backend.  The handlers only ever issue
`createBucket` and `putObject`; `deleteBucket` exists so that the absence of
any rollback call is statable. -/
inductive S3Call where
  | createBucket (name : String) (region : String)
  | putObject (bucket : String) (key : String) (body : Bytes)
  | deleteBucket (name : String)
  deriving DecidableEq

/-- Whether a backend request is an object write. -/
def S3Call.isPut : S3Call → Bool
  | S3Call.putObject _ _ _ => true
  | _ => false

/-- Whether a backend request is a bucket creation. -/
def S3Call.isCreate : S3Call → Bool
  | S3Call.createBucket _ _ => true
  | _ => false

/-- Whether a backend request is a bucket deletion (a rollback). -/
def S3Call.isDelete : S3Call → Bool
  | S3Call.deleteBucket _ => true
  | _ => false

/-- The ambient AWS configuration produced by `config.LoadDefaultConfig`; the
handlers never inspect its region. -/
structure AwsConfig where
  region : String
  deriving DecidableEq

/-- Oracle for one invocation: the outcome of `config.LoadDefaultConfig`, the
S3 backend's answers to `CreateBucket` and `PutObject` (`none` = success),
and the two `time.Now()` readings the handler takes (bucket name first,
object key second). -/
structure Env where
  configLoad : Except String AwsConfig
  createBucketErr : String → String → Option String
  putObjectErr : String → String → Bytes → Option String
  now1 : GoTime
  now2 : GoTime

/-- `events.APIGatewayProxyRequest`, reduced to the only field the handlers
read. -/
structure APIGatewayProxyRequest where
  body : String
  deriving DecidableEq

/-- `events.APIGatewayProxyResponse`, reduced to the fields the handlers set;
Go's zero value leaves `body` empty. -/
structure APIGatewayProxyResponse where
  statusCode : Nat
  body : String
  deriving DecidableEq

/-- What one `Handler` invocation produces: the response, the Go `error`
return value, and the trace of S3 requests issued, in order. -/
structure HandlerResult where
  response : APIGatewayProxyResponse
  goError : Option String
  calls : List S3Call
  deriving DecidableEq

/-- `BucketBasics.CreateBucket` (src/main.go lines 27-38): issue one creation
request with the given name as bucket and the given region as location
constraint, and return the backend's error verbatim. -/
def CreateBucket (env : Env) (name : String) (region : String) :
    Option String × List S3Call :=
  (env.createBucketErr name region, [S3Call.createBucket name region])

/-- `BucketBasics.UploadFileToS3` (src/main.go lines 41-51): issue one
`PutObject` request and return the backend's error verbatim. -/
def UploadFileToS3 (env : Env) (bucketName : String) (fileName : String)
    (fileData : Bytes) : Option String × List S3Call :=
  (env.putObjectErr bucketName fileName fileData,
    [S3Call.putObject bucketName fileName fileData])

/-- `Handler` of the compression variant (src/main.go lines 99-140): load the
config, create a timestamp-named bucket in region `"ap-south-1"`, compress and
"encrypt" the request body, upload it; any failure yields a bare 500 response
and the Go error returned is always `nil`. -/
def HandlerCompress (codec : Codec) (env : Env)
    (request : APIGatewayProxyRequest) : HandlerResult :=
  match env.configLoad with
  | Except.error _ => ⟨⟨500, ""⟩, none, []⟩
  | Except.ok _ =>
    match CreateBucket env (bucketNameCompress env.now1) "ap-south-1" with
    | (some _, cbCalls) => ⟨⟨500, ""⟩, none, cbCalls⟩
    | (none, cbCalls) =>
      match compressAndEncrypt codec (strBytes request.body) with
      | Except.error _ => ⟨⟨500, ""⟩, none, cbCalls⟩
      | Except.ok data =>
        match UploadFileToS3 env (bucketNameCompress env.now1)
            (fileNameCompress env.now2) data with
        | (some _, upCalls) => ⟨⟨500, ""⟩, none, cbCalls ++ upCalls⟩
        | (none, upCalls) =>
          ⟨⟨200, "File successfully uploaded to S3."⟩, none, cbCalls ++ upCalls⟩

/-- `Handler` of the plain variant (src/main.go lines 196-231): identical
pipeline without the transform stage; the raw request body is uploaded. -/
def HandlerPlain (env : Env) (request : APIGatewayProxyRequest) :
    HandlerResult :=
  match env.configLoad with
  | Except.error _ => ⟨⟨500, ""⟩, none, []⟩
  | Except.ok _ =>
    match CreateBucket env (bucketNamePlain env.now1) "ap-south-1" with
    | (some _, cbCalls) => ⟨⟨500, ""⟩, none, cbCalls⟩
    | (none, cbCalls) =>
      match UploadFileToS3 env (bucketNamePlain env.now1)
          (fileNamePlain env.now2) (strBytes request.body) with
      | (some _, upCalls) => ⟨⟨500, ""⟩, none, cbCalls ++ upCalls⟩
      | (none, upCalls) =>
        ⟨⟨200, "File successfully uploaded to S3."⟩, none, cbCalls ++ upCalls⟩

/-- Whether an `Except` is a success. -/
def exOk {ε α : Type} : Except ε α → Bool
  | Except.ok _ => true
  | Except.error _ => false

/-- All four stages of the compression-variant pipeline succeed: config load,
bucket creation on the generated name, transform, and object write of the
transformed bytes. -/
def stagesOkCompress (codec : Codec) (env : Env)
    (req : APIGatewayProxyRequest) : Bool :=
  exOk env.configLoad &&
  (env.createBucketErr (bucketNameCompress env.now1) "ap-south-1").isNone &&
  (match compressAndEncrypt codec (strBytes req.body) with
   | Except.error _ => false
   | Except.ok data =>
     (env.putObjectErr (bucketNameCompress env.now1) (fileNameCompress env.now2)
       data).isNone)

/-- All three stages of the plain-variant pipeline succeed. -/
def stagesOkPlain (env : Env) (req : APIGatewayProxyRequest) : Bool :=
  exOk env.configLoad &&
  (env.createBucketErr (bucketNamePlain env.now1) "ap-south-1").isNone &&
  (env.putObjectErr (bucketNamePlain env.now1) (fileNamePlain env.now2)
    (strBytes req.body)).isNone

/-- A first wall-clock reading used to instantiate theorems. -/
def goT1 : GoTime := ⟨2024, 1, 2, 3, 4, 5, 111⟩

/-- A second wall-clock reading used to instantiate theorems. -/
def goT2 : GoTime := ⟨2024, 1, 2, 3, 4, 5, 222⟩

/-- An invocation environment in which every external call succeeds. -/
def envAllOk : Env :=
  ⟨Except.ok ⟨"us-east-1"⟩, fun _ _ => none, fun _ _ _ => none, goT1, goT2⟩

/-- An environment in which loading the AWS configuration fails. -/
def envCfgFail : Env :=
  ⟨Except.error "no credentials", fun _ _ => none, fun _ _ _ => none, goT1, goT2⟩

/-- An environment in which every `CreateBucket` call fails. -/
def envCbFail : Env :=
  ⟨Except.ok ⟨"us-east-1"⟩, fun _ _ => some "AccessDenied", fun _ _ _ => none,
    goT1, goT2⟩

/-- An environment in which every `PutObject` call fails. -/
def envPutFail : Env :=
  ⟨Except.ok ⟨"us-east-1"⟩, fun _ _ => none, fun _ _ _ => some "NoSuchBucket",
    goT1, goT2⟩

/-- A request with body `"hello"`. -/
def reqHello : APIGatewayProxyRequest := ⟨"hello"⟩

/-- Case split for the compression variant: either every stage succeeded and
the response is the fixed 200 success, or some stage failed and the response
is the bare 500. -/
theorem handlerCompress_dichotomy (codec : Codec) (env : Env)
    (req : APIGatewayProxyRequest) :
    (stagesOkCompress codec env req = true ∧
      (HandlerCompress codec env req).response =
        ⟨200, "File successfully uploaded to S3."⟩) ∨
    (stagesOkCompress codec env req = false ∧
      (HandlerCompress codec env req).response = ⟨500, ""⟩) := by
  unfold HandlerCompress stagesOkCompress CreateBucket UploadFileToS3
  cases hcfg : env.configLoad with
  | error e => right; simp [exOk]
  | ok cfg =>
    cases hcb : env.createBucketErr (bucketNameCompress env.now1) "ap-south-1" with
    | some e => right; simp [exOk, hcb]
    | none =>
      cases hce : compressAndEncrypt codec (strBytes req.body) with
      | error e => right; simp [exOk, hcb, hce]
      | ok data =>
        cases hput : env.putObjectErr (bucketNameCompress env.now1)
            (fileNameCompress env.now2) data with
        | some e => right; simp [exOk, hcb, hce, hput]
        | none => left; simp [exOk, hcb, hce, hput]

/-- Case split for the plain variant. -/
theorem handlerPlain_dichotomy (env : Env) (req : APIGatewayProxyRequest) :
    (stagesOkPlain env req = true ∧
      (HandlerPlain env req).response =
        ⟨200, "File successfully uploaded to S3."⟩) ∨
    (stagesOkPlain env req = false ∧
      (HandlerPlain env req).response = ⟨500, ""⟩) := by
  unfold HandlerPlain stagesOkPlain CreateBucket UploadFileToS3
  cases hcfg : env.configLoad with
  | error e => right; simp [exOk]
  | ok cfg =>
    cases hcb : env.createBucketErr (bucketNamePlain env.now1) "ap-south-1" with
    | some e => right; simp [exOk, hcb]
    | none =>
      cases hput : env.putObjectErr (bucketNamePlain env.now1)
          (fileNamePlain env.now2) (strBytes req.body) with
      | some e => right; simp [exOk, hcb, hput]
      | none => left; simp [exOk, hcb, hput]

/-- The compression-variant handler always returns a `nil` Go error. -/
theorem handlerCompress_goError (codec : Codec) (env : Env)
    (req : APIGatewayProxyRequest) :
    (HandlerCompress codec env req).goError = none := by
  unfold HandlerCompress CreateBucket UploadFileToS3
  cases hcfg : env.configLoad with
  | error e => rfl
  | ok cfg =>
    cases hcb : env.createBucketErr (bucketNameCompress env.now1) "ap-south-1" with
    | some e => simp [hcb]
    | none =>
      cases hce : compressAndEncrypt codec (strBytes req.body) with
      | error e => simp [hcb, hce]
      | ok data =>
        cases hput : env.putObjectErr (bucketNameCompress env.now1)
            (fileNameCompress env.now2) data with
        | some e => simp [hcb, hce, hput]
        | none => simp [hcb, hce, hput]

/-- The plain-variant handler always returns a `nil` Go error. -/
theorem handlerPlain_goError (env : Env) (req : APIGatewayProxyRequest) :
    (HandlerPlain env req).goError = none := by
  unfold HandlerPlain CreateBucket UploadFileToS3
  cases hcfg : env.configLoad with
  | error e => rfl
  | ok cfg =>
    cases hcb : env.createBucketErr (bucketNamePlain env.now1) "ap-south-1" with
    | some e => simp [hcb]
    | none =>
      cases hput : env.putObjectErr (bucketNamePlain env.now1)
          (fileNamePlain env.now2) (strBytes req.body) with
      | some e => simp [hcb, hput]
      | none => simp [hcb, hput]

/-- C1: in the compression variant, for every byte sequence `b`, dropping the
first `len(key)` bytes of a successful `compressAndEncrypt(b)` and
zstd-decompressing the remainder yields exactly `b`, because the encrypt stage
is an identity and the fixed key is merely prefixed to the compressed bytes. -/
theorem transform_roundtrip (codec : Codec)
    (hrt : ∀ b, codec.decode (codec.encode b) = Except.ok b)
    (b out : Bytes) (h : compressAndEncrypt codec b = Except.ok out) :
    codec.decode (List.drop encryptionKey.length out) = Except.ok b := by
  unfold compressAndEncrypt compressZstd encrypt at h
  cases hnw : codec.newWriterErr with
  | some e => rw [hnw] at h; exact absurd h (by simp)
  | none =>
    rw [hnw] at h
    cases hw : codec.writeErr b with
    | some e => rw [hw] at h; exact absurd h (by simp)
    | none =>
      rw [hw] at h
      simp only [Except.ok.injEq] at h
      subst h
      rw [List.drop_left]
      exact hrt b

/-- C1 witness: instantiated at the identity codec and the bytes `[1, 2, 3]`. -/
theorem transform_roundtrip_witness :
    Codec.decode idCodec
        (List.drop encryptionKey.length (encryptionKey ++ [1, 2, 3])) =
      Except.ok [1, 2, 3] :=
  transform_roundtrip idCodec (fun _ => rfl) [1, 2, 3]
    (encryptionKey ++ [1, 2, 3]) rfl

/-- C6: `encrypt` returns its input unchanged and never errors;
`compressAndEncrypt` returns exactly the fixed key concatenated with the
(identity-)encrypted compressed bytes, and fails only if the compression
sub-stage fails. -/
theorem obscure_stage_shape (codec : Codec) (d k b c : Bytes) :
    encrypt d k = Except.ok d ∧
    (compressZstd codec b = Except.ok c →
      compressAndEncrypt codec b = Except.ok (encryptionKey ++ c)) ∧
    (∀ e, compressAndEncrypt codec b = Except.error e →
      ∃ e2, compressZstd codec b = Except.error e2) := by
  refine ⟨rfl, ?_, ?_⟩
  · intro h
    unfold compressAndEncrypt
    rw [h]
    rfl
  · intro e h
    cases hz : compressZstd codec b with
    | error e2 => exact ⟨e2, rfl⟩
    | ok cz =>
      unfold compressAndEncrypt at h
      rw [hz] at h
      simp [encrypt] at h

/-- C6 witness: instantiated at the identity codec and the byte `[7]`. -/
theorem obscure_stage_shape_witness :
    compressAndEncrypt idCodec [7] = Except.ok (encryptionKey ++ [7]) :=
  (obscure_stage_shape idCodec [0] [1] [7] [7]).2.1 rfl

/-- C2: whenever any stage fails (config load, bucket creation, transform, or
object write), the handler returns status exactly 500 with an empty body, in
both variants. -/
theorem uniform_error_surface (codec : Codec) (env : Env)
    (req : APIGatewayProxyRequest) :
    (stagesOkCompress codec env req = false →
      (HandlerCompress codec env req).response = ⟨500, ""⟩) ∧
    (stagesOkPlain env req = false →
      (HandlerPlain env req).response = ⟨500, ""⟩) := by
  constructor
  · intro h
    rcases handlerCompress_dichotomy codec env req with ⟨h1, _⟩ | ⟨_, h2⟩
    · rw [h] at h1; simp at h1
    · exact h2
  · intro h
    rcases handlerPlain_dichotomy env req with ⟨h1, _⟩ | ⟨_, h2⟩
    · rw [h] at h1; simp at h1
    · exact h2

/-- C2 witness: instantiated at an environment whose config load fails. -/
theorem uniform_error_surface_witness :
    (HandlerCompress idCodec envCfgFail reqHello).response = ⟨500, ""⟩ ∧
    (HandlerPlain envCfgFail reqHello).response = ⟨500, ""⟩ :=
  ⟨(uniform_error_surface idCodec envCfgFail reqHello).1 rfl,
    (uniform_error_surface idCodec envCfgFail reqHello).2 rfl⟩

/-- C4: whenever all stages succeed, the handler returns status 200 with body
exactly `"File successfully uploaded to S3."`, for every request body, in both
variants. -/
theorem success_path_literal (codec : Codec) (env : Env)
    (req : APIGatewayProxyRequest)
    (hC : stagesOkCompress codec env req = true)
    (hP : stagesOkPlain env req = true) :
    (HandlerCompress codec env req).response =
      ⟨200, "File successfully uploaded to S3."⟩ ∧
    (HandlerPlain env req).response =
      ⟨200, "File successfully uploaded to S3."⟩ := by
  constructor
  · rcases handlerCompress_dichotomy codec env req with ⟨_, h⟩ | ⟨hf, _⟩
    · exact h
    · rw [hC] at hf; simp at hf
  · rcases handlerPlain_dichotomy env req with ⟨_, h⟩ | ⟨hf, _⟩
    · exact h
    · rw [hP] at hf; simp at hf

/-- C4 witness: instantiated at the all-success environment and body
`"hello"`. -/
theorem success_path_literal_witness :
    (HandlerCompress idCodec envAllOk reqHello).response =
      ⟨200, "File successfully uploaded to S3."⟩ ∧
    (HandlerPlain envAllOk reqHello).response =
      ⟨200, "File successfully uploaded to S3."⟩ :=
  success_path_literal idCodec envAllOk reqHello rfl rfl

/-- C3: if the `CreateBucket` call fails, no `PutObject` request is ever
issued and the handler returns the bare 500 response, in both variants. -/
theorem fail_fast_on_provisioning (codec : Codec) (env : Env)
    (req : APIGatewayProxyRequest) (e1 e2 : String)
    (h1 : env.createBucketErr (bucketNameCompress env.now1) "ap-south-1" =
      some e1)
    (h2 : env.createBucketErr (bucketNamePlain env.now1) "ap-south-1" =
      some e2) :
    ((HandlerCompress codec env req).calls.all fun c => !c.isPut) = true ∧
    (HandlerCompress codec env req).response = ⟨500, ""⟩ ∧
    ((HandlerPlain env req).calls.all fun c => !c.isPut) = true ∧
    (HandlerPlain env req).response = ⟨500, ""⟩ := by
  unfold HandlerCompress HandlerPlain CreateBucket
  cases hcfg : env.configLoad with
  | error e => simp [S3Call.isPut]
  | ok cfg => simp [h1, h2, S3Call.isPut]

/-- C3 witness: instantiated at an environment whose bucket creation fails. -/
theorem fail_fast_on_provisioning_witness :
    ((HandlerCompress idCodec envCbFail reqHello).calls.all
      fun c => !c.isPut) = true ∧
    (HandlerCompress idCodec envCbFail reqHello).response = ⟨500, ""⟩ ∧
    ((HandlerPlain envCbFail reqHello).calls.all fun c => !c.isPut) = true ∧
    (HandlerPlain envCbFail reqHello).response = ⟨500, ""⟩ :=
  fail_fast_on_provisioning idCodec envCbFail reqHello
    "AccessDenied" "AccessDenied" rfl rfl

/-- Timestamps in the same second format identically. -/
theorem goFormat_sameSecond {t u : GoTime} (h : sameSecond t u) :
    goFormat t = goFormat u := by
  unfold sameSecond at h
  obtain ⟨h1, h2, h3, h4, h5, h6⟩ := h
  unfold goFormat
  rw [h1, h2, h3, h4, h5, h6]

/-- C5: two invocations whose wall-clock readings format to the same second
generate equal bucket names and equal object keys, in both variants. -/
theorem same_second_naming_collision (t u : GoTime) (h : sameSecond t u) :
    bucketNameCompress t = bucketNameCompress u ∧
    fileNameCompress t = fileNameCompress u ∧
    bucketNamePlain t = bucketNamePlain u ∧
    fileNamePlain t = fileNamePlain u := by
  have hf : goFormat t = goFormat u := goFormat_sameSecond h
  unfold bucketNameCompress fileNameCompress bucketNamePlain fileNamePlain
  rw [hf]
  exact ⟨rfl, rfl, rfl, rfl⟩

/-- A wall-clock reading in the same second as `goT1` but with a different
sub-second component. -/
def goT1b : GoTime := ⟨2024, 1, 2, 3, 4, 5, 999⟩

/-- C5 witness: two readings in the same second, differing in nanoseconds. -/
theorem same_second_naming_collision_witness :
    bucketNameCompress goT1 = bucketNameCompress goT1b ∧
    fileNameCompress goT1 = fileNameCompress goT1b ∧
    bucketNamePlain goT1 = bucketNamePlain goT1b ∧
    fileNamePlain goT1 = fileNamePlain goT1b :=
  same_second_naming_collision goT1 goT1b
    (by unfold sameSecond; exact ⟨rfl, rfl, rfl, rfl, rfl, rfl⟩)

/-- C7: if bucket creation succeeds and then the transform or the object write
fails, the handler returns the bare 500, the creation request remains the
trace's first call (the bucket is left behind), and no deletion or rollback
request is ever issued, in both variants. -/
theorem no_partial_failure_cleanup (codec : Codec) (env : Env)
    (req : APIGatewayProxyRequest) (cfg : AwsConfig)
    (hcfg : env.configLoad = Except.ok cfg)
    (hcbC : env.createBucketErr (bucketNameCompress env.now1) "ap-south-1" =
      none)
    (hcbP : env.createBucketErr (bucketNamePlain env.now1) "ap-south-1" =
      none)
    (hfailC : ∀ d, compressAndEncrypt codec (strBytes req.body) =
      Except.ok d →
      env.putObjectErr (bucketNameCompress env.now1) (fileNameCompress env.now2)
        d ≠ none)
    (hfailP : env.putObjectErr (bucketNamePlain env.now1)
      (fileNamePlain env.now2) (strBytes req.body) ≠ none) :
    (HandlerCompress codec env req).response = ⟨500, ""⟩ ∧
    S3Call.createBucket (bucketNameCompress env.now1) "ap-south-1" ∈
      (HandlerCompress codec env req).calls ∧
    ((HandlerCompress codec env req).calls.all fun c => !c.isDelete) = true ∧
    (HandlerPlain env req).response = ⟨500, ""⟩ ∧
    S3Call.createBucket (bucketNamePlain env.now1) "ap-south-1" ∈
      (HandlerPlain env req).calls ∧
    ((HandlerPlain env req).calls.all fun c => !c.isDelete) = true := by
  unfold HandlerCompress HandlerPlain CreateBucket UploadFileToS3
  rw [hcfg]
  cases hputP : env.putObjectErr (bucketNamePlain env.now1)
      (fileNamePlain env.now2) (strBytes req.body) with
  | none => exact absurd hputP hfailP
  | some eP =>
    cases hce : compressAndEncrypt codec (strBytes req.body) with
    | error e => simp [hcbC, hcbP, hce, hputP, S3Call.isDelete]
    | ok d =>
      cases hputC : env.putObjectErr (bucketNameCompress env.now1)
          (fileNameCompress env.now2) d with
      | none => exact absurd hputC (hfailC d hce)
      | some eC => simp [hcbC, hcbP, hce, hputP, hputC, S3Call.isDelete]

/-- C7 witness: instantiated at an environment whose object write fails. -/
theorem no_partial_failure_cleanup_witness :
    (HandlerCompress idCodec envPutFail reqHello).response = ⟨500, ""⟩ ∧
    S3Call.createBucket (bucketNameCompress envPutFail.now1) "ap-south-1" ∈
      (HandlerCompress idCodec envPutFail reqHello).calls ∧
    ((HandlerCompress idCodec envPutFail reqHello).calls.all
      fun c => !c.isDelete) = true ∧
    (HandlerPlain envPutFail reqHello).response = ⟨500, ""⟩ ∧
    S3Call.createBucket (bucketNamePlain envPutFail.now1) "ap-south-1" ∈
      (HandlerPlain envPutFail reqHello).calls ∧
    ((HandlerPlain envPutFail reqHello).calls.all
      fun c => !c.isDelete) = true :=
  no_partial_failure_cleanup idCodec envPutFail reqHello ⟨"us-east-1"⟩ rfl
    rfl rfl (fun _ _ hn => Option.noConfusion hn)
    (fun hn => Option.noConfusion hn)

/-- C8: with an empty request body, if the config load and both backend calls
succeed and the zstd encoder initialises and accepts the empty write, then the
compression stage does not error on zero-length input and both handlers return
status 200. -/
theorem empty_body_success (codec : Codec) (env : Env)
    (hcfg : exOk env.configLoad = true)
    (hcb : ∀ n r, env.createBucketErr n r = none)
    (hput : ∀ b k d, env.putObjectErr b k d = none)
    (hnw : codec.newWriterErr = none)
    (hw : codec.writeErr [] = none) :
    exOk (compressZstd codec (strBytes "")) = true ∧
    (HandlerCompress codec env ⟨""⟩).response.statusCode = 200 ∧
    (HandlerPlain env ⟨""⟩).response.statusCode = 200 := by
  have hz : compressZstd codec [] = Except.ok (codec.encode []) := by
    unfold compressZstd; rw [hnw, hw]
  have hsC : stagesOkCompress codec env ⟨""⟩ = true := by
    simp [stagesOkCompress, compressAndEncrypt, compressZstd, encrypt,
      hcfg, hcb, hput, hnw, hw, strBytes]
  have hsP : stagesOkPlain env ⟨""⟩ = true := by
    simp [stagesOkPlain, hcfg, hcb, hput]
  refine ⟨by rw [show strBytes "" = [] from rfl, hz]; rfl, ?_, ?_⟩
  · rcases handlerCompress_dichotomy codec env ⟨""⟩ with ⟨_, h⟩ | ⟨hf, _⟩
    · rw [h]
    · rw [hsC] at hf; simp at hf
  · rcases handlerPlain_dichotomy env ⟨""⟩ with ⟨_, h⟩ | ⟨hf, _⟩
    · rw [h]
    · rw [hsP] at hf; simp at hf

/-- C8 witness: instantiated at the identity codec and the all-success
environment. -/
theorem empty_body_success_witness :
    exOk (compressZstd idCodec (strBytes "")) = true ∧
    (HandlerCompress idCodec envAllOk ⟨""⟩).response.statusCode = 200 ∧
    (HandlerPlain envAllOk ⟨""⟩).response.statusCode = 200 :=
  empty_body_success idCodec envAllOk rfl (fun _ _ => rfl)
    (fun _ _ _ => rfl) rfl rfl

/-- C9: `CreateBucket` issues exactly one creation request carrying its name
and region arguments verbatim, and whenever the config load succeeds — for
any configured region — each handler issues exactly one creation request,
with the generated bucket name and the fixed region `"ap-south-1"`. -/
theorem bucket_creation_request_shape (codec : Codec) (env : Env)
    (req : APIGatewayProxyRequest) (name : String) (region : String)
    (cfg : AwsConfig) (hcfg : env.configLoad = Except.ok cfg) :
    (CreateBucket env name region).2 = [S3Call.createBucket name region] ∧
    ((HandlerCompress codec env req).calls.filter fun c => c.isCreate) =
      [S3Call.createBucket (bucketNameCompress env.now1) "ap-south-1"] ∧
    ((HandlerPlain env req).calls.filter fun c => c.isCreate) =
      [S3Call.createBucket (bucketNamePlain env.now1) "ap-south-1"] := by
  refine ⟨rfl, ?_, ?_⟩
  · unfold HandlerCompress CreateBucket UploadFileToS3
    rw [hcfg]
    cases hcb : env.createBucketErr (bucketNameCompress env.now1)
        "ap-south-1" with
    | some e => simp [hcb, S3Call.isCreate]
    | none =>
      cases hce : compressAndEncrypt codec (strBytes req.body) with
      | error e => simp [hcb, hce, S3Call.isCreate]
      | ok d =>
        cases hput : env.putObjectErr (bucketNameCompress env.now1)
            (fileNameCompress env.now2) d with
        | some e => simp [hcb, hce, hput, S3Call.isCreate]
        | none => simp [hcb, hce, hput, S3Call.isCreate]
  · unfold HandlerPlain CreateBucket UploadFileToS3
    rw [hcfg]
    cases hcb : env.createBucketErr (bucketNamePlain env.now1)
        "ap-south-1" with
    | some e => simp [hcb, S3Call.isCreate]
    | none =>
      cases hput : env.putObjectErr (bucketNamePlain env.now1)
          (fileNamePlain env.now2) (strBytes req.body) with
      | some e => simp [hcb, hput, S3Call.isCreate]
      | none => simp [hcb, hput, S3Call.isCreate]

/-- C9 witness: instantiated at the all-success environment, whose loaded
configuration carries region `"us-east-1"`, not `"ap-south-1"`. -/
theorem bucket_creation_request_shape_witness :
    (CreateBucket envAllOk "mybucket" "eu-west-1").2 =
      [S3Call.createBucket "mybucket" "eu-west-1"] ∧
    ((HandlerCompress idCodec envAllOk reqHello).calls.filter
      fun c => c.isCreate) =
      [S3Call.createBucket (bucketNameCompress envAllOk.now1) "ap-south-1"] ∧
    ((HandlerPlain envAllOk reqHello).calls.filter fun c => c.isCreate) =
      [S3Call.createBucket (bucketNamePlain envAllOk.now1) "ap-south-1"] :=
  bucket_creation_request_shape idCodec envAllOk reqHello "mybucket"
    "eu-west-1" ⟨"us-east-1"⟩ rfl

/-- C10: for every invocation and every outcome, both handlers return a `nil`
Go error, and the response status is exactly 200 or exactly 500, never any
other value. -/
theorem handler_result_shape (codec : Codec) (env : Env)
    (req : APIGatewayProxyRequest) :
    (HandlerCompress codec env req).goError = none ∧
    ((HandlerCompress codec env req).response.statusCode = 200 ∨
      (HandlerCompress codec env req).response.statusCode = 500) ∧
    (HandlerPlain env req).goError = none ∧
    ((HandlerPlain env req).response.statusCode = 200 ∨
      (HandlerPlain env req).response.statusCode = 500) := by
  refine ⟨handlerCompress_goError codec env req, ?_,
    handlerPlain_goError env req, ?_⟩
  · rcases handlerCompress_dichotomy codec env req with ⟨_, h⟩ | ⟨_, h⟩
    · left; rw [h]
    · right; rw [h]
  · rcases handlerPlain_dichotomy env req with ⟨_, h⟩ | ⟨_, h⟩
    · left; rw [h]
    · right; rw [h]
